import Mathlib

/-!
A shallow embedding of `KDStateManager` (kdstatemanager.js): an in-memory
indexed history store for JSON-like state records with a single cursor
(`currentIndex`), positional insert/delete/replace, recall with template
dispatch, and undo/redo navigation.

JavaScript values are modelled by the inductive `JsVal` (objects are
association lists with distinct keys, functions are opaque identifiers).
`deepCopy` in the source is `JSON.parse(JSON.stringify(x))`; it is modelled
by `jsonValue`, which drops function-valued and undefined-valued object
fields, turns them into `null` inside arrays, and fails (`none`, an
exception in JS) on a top-level function or undefined.  Operations that can
throw return `Option`; `none` models a thrown exception.
-/

namespace KDSM

/-- JavaScript runtime values, as far as the manager observes them. -/
inductive JsVal : Type where
  | vundefined : JsVal
  | vnull : JsVal
  | vbool : Bool → JsVal
  | vnum : Int → JsVal
  | vstr : String → JsVal
  | varr : List JsVal → JsVal
  | vobj : List (String × JsVal) → JsVal
  | vfun : Nat → JsVal

/-- JavaScript truthiness: `undefined`, `null`, `false`, `0` and `""` are
falsy; every object, array and function is truthy. -/
def truthy : JsVal → Bool
  | .vundefined => false
  | .vnull => false
  | .vbool b => b
  | .vnum n => n != 0
  | .vstr s => s.length != 0
  | .varr _ => true
  | .vobj _ => true
  | .vfun _ => true

/-- `typeof v === 'function'`. -/
def isFunction : JsVal → Bool
  | .vfun _ => true
  | _ => false

/-- The value is a plain object (a state record in the data model). -/
def isObj : JsVal → Bool
  | .vobj _ => true
  | _ => false

mutual

/-- One JSON round-trip (`JSON.parse(JSON.stringify v)`): `none` when
`JSON.stringify` yields `undefined` (top-level function or undefined),
which makes `JSON.parse` throw. -/
def jsonValue : JsVal → Option JsVal
  | .vundefined => none
  | .vfun _ => none
  | .vnull => some .vnull
  | .vbool b => some (.vbool b)
  | .vnum n => some (.vnum n)
  | .vstr s => some (.vstr s)
  | .varr es => some (.varr (jsonArr es))
  | .vobj fs => some (.vobj (jsonObj fs))

/-- Array elements that do not serialize become `null`. -/
def jsonArr : List JsVal → List JsVal
  | [] => []
  | e :: es => ((jsonValue e).getD .vnull) :: jsonArr es

/-- Object fields whose value does not serialize are dropped. -/
def jsonObj : List (String × JsVal) → List (String × JsVal)
  | [] => []
  | (k, v) :: fs =>
    match jsonValue v with
    | none => jsonObj fs
    | some c => (k, c) :: jsonObj fs

end

/-- `const deepCopy = obj => JSON.parse(JSON.stringify(obj))`. -/
def deepCopy : JsVal → Option JsVal := jsonValue

/-- First-match field lookup (JS object keys are unique, so this is the
object's own property lookup). -/
def lookupField : List (String × JsVal) → String → JsVal
  | [], _ => .vundefined
  | (k, v) :: fs, key => if k = key then v else lookupField fs key

/-- Property read `v[key]` for a string key; absent keys give `undefined`.
(Only plain objects are read this way by the manager's dispatch.) -/
def objGet : JsVal → String → JsVal
  | .vobj fs, k => lookupField fs k
  | _, _ => .vundefined

/-- Array read `store[index]` with an integer index: out-of-range and
negative indices give `undefined`. -/
def jsElem (l : List JsVal) (i : Int) : JsVal :=
  if 0 ≤ i then (l.get? i.toNat).getD .vundefined else .vundefined

/-- `checkTemplate`: `typeof template === 'object'` and every own value is
a function.  `typeof null === 'object'` but `Object.values(null)` throws,
modelled by `none`; arrays also have `typeof 'object'`. -/
def checkTemplate : JsVal → Option Bool
  | .vnull => none
  | .vobj fs => some (fs.all fun kv => isFunction kv.2)
  | .varr es => some (es.all isFunction)
  | _ => some false

/-- `Object.keys`/indexed access pairs for a committed template.  A
committed template is always a plain object or an array (see
`checkTemplate`); other shapes are unreachable and give no entries. -/
def templateEntries : JsVal → List (String × JsVal)
  | .vobj fs => fs
  | .varr es => ((List.range es.length).zip es).map fun p => (toString p.1, p.2)
  | _ => []

/-- The mutable `_state` of a manager instance: the committed template, the
`store` array of state records, and the integer `currentIndex` cursor. -/
structure StoreState : Type where
  template : JsVal
  store : List JsVal
  currentIndex : Int

/-- `store.splice(index, 1)` for an index the guard has already proved in
range: remove the element at `index`, shifting later elements down. -/
def spliceRemove (l : List JsVal) (i : Int) : List JsVal :=
  l.take i.toNat ++ l.drop (i.toNat + 1)

/-- `store.splice(index, 0, st)` for an index in `[0, length]`: put `st` at
position `index`, shifting later elements up. -/
def spliceInsert (l : List JsVal) (i : Int) (v : JsVal) : List JsVal :=
  l.take i.toNat ++ v :: l.drop i.toNat

/-- The handler invocations performed by `recallOp`'s dispatch loop over a
copied record `c`:
`Object.keys(template).forEach(key => { if (template[key]) template[key](c[key]) })`.
Each entry `(key, arg)` records one handler call with its argument; the
argument is `undefined` when the record lacks the key. -/
def dispatchCalls (template : JsVal) (c : JsVal) : List (String × JsVal) :=
  (templateEntries template).filterMap fun kv =>
    if truthy kv.2 then some (kv.1, objGet c kv.1) else none

/-- `_private.recall(index)`: on a truthy `store[index]`, set the cursor,
deep-copy the record, run the dispatch loop, and return the copy; otherwise
return `false` with no state change.  The third component lists the handler
invocations.  `none` models the exception thrown when the deep copy fails
(a truthy but unserializable record). -/
def recallOp (s : StoreState) (index : Int) :
    Option (StoreState × JsVal × List (String × JsVal)) :=
  if truthy (jsElem s.store index) then
    match deepCopy (jsElem s.store index) with
    | none => none
    | some c =>
      some ({ s with currentIndex := index }, c, dispatchCalls s.template c)
  else some (s, .vbool false, [])

/-- `_private.append(state)`: deep-copy, push to the tail, and point the
cursor at the new last index.  The copy is both passed to the callback and
returned. -/
def append (s : StoreState) (state : JsVal) : Option (StoreState × JsVal) :=
  (deepCopy state).map fun c =>
    ({ s with store := s.store ++ [c],
              currentIndex := ((s.store ++ [c]).length : Int) - 1 }, c)

/-- `_private.delete(index)`: on a truthy `store[index]`, deep-copy the
record, splice it out, and decrement the cursor unconditionally; otherwise
return `false` with no state change. -/
def delete (s : StoreState) (index : Int) : Option (StoreState × JsVal) :=
  if truthy (jsElem s.store index) then
    (deepCopy (jsElem s.store index)).map fun c =>
      ({ s with store := spliceRemove s.store index,
                currentIndex := s.currentIndex - 1 }, c)
  else some (s, .vbool false)

/-- `_private.insert(index, state)`: deep-copy first; if `store[index]` is
truthy or `index == store.length`, splice the copy in and increment the
cursor only when `index < currentIndex`; otherwise, if `index > -1`, push
the copy to the tail and set the cursor to the new length; otherwise return
`false` with no state change. -/
def insert (s : StoreState) (index : Int) (state : JsVal) :
    Option (StoreState × JsVal) :=
  (deepCopy state).map fun st =>
    if truthy (jsElem s.store index) || index = (s.store.length : Int) then
      ({ s with store := spliceInsert s.store index st,
                currentIndex :=
                  if index < s.currentIndex then s.currentIndex + 1
                  else s.currentIndex }, st)
    else if index > -1 then
      ({ s with store := s.store ++ [st],
                currentIndex := ((s.store ++ [st]).length : Int) }, st)
    else (s, .vbool false)

/-- `_private.replace(index, state)`: delete, then insert at the same index
when the delete succeeded; when the delete failed the function returns
`undefined`. -/
def replace (s : StoreState) (index : Int) (state : JsVal) :
    Option (StoreState × JsVal) :=
  match delete s index with
  | none => none
  | some (s1, d) =>
    if truthy d then insert s1 index state else some (s1, .vundefined)

/-- `_private.undo()`: `currentIndex > 0 ? recall(currentIndex - 1) : false`. -/
def undo (s : StoreState) : Option (StoreState × JsVal × List (String × JsVal)) :=
  if s.currentIndex > 0 then recallOp s (s.currentIndex - 1)
  else some (s, .vbool false, [])

/-- `_private.redo()`:
`currentIndex < index.last() ? recall(currentIndex + 1) : false`, where
`index.last()` is `store.length - 1`. -/
def redo (s : StoreState) : Option (StoreState × JsVal × List (String × JsVal)) :=
  if s.currentIndex < (s.store.length : Int) - 1 then recallOp s (s.currentIndex + 1)
  else some (s, .vbool false, [])

/-- `_private.template(template)`: deep-copy the argument (which drops every
function-valued field), commit the copy when `checkTemplate` accepts it, and
return the copy; otherwise return `false` and keep the old template. -/
def setTemplate (s : StoreState) (template : JsVal) :
    Option (StoreState × JsVal) :=
  match deepCopy template with
  | none => none
  | some t =>
    match checkTemplate t with
    | none => none
    | some true => some ({ s with template := t }, t)
    | some false => some (s, .vbool false)

/-- `_private.store(store)`: deep-copy the argument; when the copy is an
array, commit it and reset the cursor to the new last index; otherwise
return `false` with no state change. -/
def setStore (s : StoreState) (store : JsVal) : Option (StoreState × JsVal) :=
  match deepCopy store with
  | none => none
  | some c =>
    match c with
    | .varr es =>
      some ({ s with store := es, currentIndex := (es.length : Int) - 1 }, c)
    | _ => some (s, .vbool false)

/-- `this.index.set(index)`: set the cursor when `store[index]` is truthy,
otherwise report an error (`false` here) and leave the state unchanged. -/
def indexSet (s : StoreState) (index : Int) : StoreState × Bool :=
  if truthy (jsElem s.store index) then ({ s with currentIndex := index }, true)
  else (s, false)

/-- The constructor's `params` object.  `store` is kept as a raw value
(`Array.isArray` is checked inside the constructor); `currentIndex` is
either absent (`none`) or the integer the caller supplied. -/
structure CParams : Type where
  dev : JsVal
  store : JsVal
  currentIndex : Option Int

/-- `new KDStateManager(template, params)`.  The constructor reads
`params.dev` unconditionally, so a missing `params` throws (`none`);
`checkTemplate(null)` also throws.  `_state` is then seeded:
the template when `checkTemplate` accepts it, else `{}` (no deep copy);
`params.store` when it is an array, else `[]`; and `params.currentIndex`
when it is present and `> -1`, else `-1`. -/
def construct (template : JsVal) (params : Option CParams) : Option StoreState :=
  match params with
  | none => none
  | some p =>
    match checkTemplate template with
    | none => none
    | some ok =>
      some { template := if ok then template else .vobj []
             store := match p.store with
                      | .varr es => es
                      | _ => []
             currentIndex := match p.currentIndex with
                             | some n => if n > -1 then n else -1
                             | none => -1 }

/-- The observable outcome of one public method call: the state afterwards,
the value handed to the completion callback (when one was supplied), and the
value the public method itself returns. -/
structure PubResult : Type where
  state : StoreState
  cb : JsVal
  ret : JsVal

/-- `this.append`: the wrapper has `return success`, so it returns the
private result (which was also passed to the callback). -/
def publicAppend (s : StoreState) (state : JsVal) : Option PubResult :=
  (append s state).map fun r => ⟨r.1, r.2, r.2⟩

/-- `this.recall`: the wrapper has `return success`. -/
def publicRecall (s : StoreState) (index : Int) : Option PubResult :=
  (recallOp s index).map fun r => ⟨r.1, r.2.1, r.2.1⟩

/-- `this.delete`: the wrapper calls `_private.delete` (whose result goes to
the callback) but has no `return` statement, so it returns `undefined`. -/
def publicDelete (s : StoreState) (index : Int) : Option PubResult :=
  (delete s index).map fun r => ⟨r.1, r.2, .vundefined⟩

/-- `this.insert`: the wrapper has no `return` statement; it returns
`undefined` while the callback receives the private result. -/
def publicInsert (s : StoreState) (index : Int) (state : JsVal) :
    Option PubResult :=
  (insert s index state).map fun r => ⟨r.1, r.2, .vundefined⟩

/-- `this.replace`: the wrapper has no `return` statement. -/
def publicReplace (s : StoreState) (index : Int) (state : JsVal) :
    Option PubResult :=
  (replace s index state).map fun r => ⟨r.1, r.2, .vundefined⟩

/-- `this.undo`: the wrapper has no `return` statement. -/
def publicUndo (s : StoreState) : Option PubResult :=
  (undo s).map fun r => ⟨r.1, r.2.1, .vundefined⟩

/-- `this.redo`: the wrapper has no `return` statement. -/
def publicRedo (s : StoreState) : Option PubResult :=
  (redo s).map fun r => ⟨r.1, r.2.1, .vundefined⟩

/-- `this.template(template, callback)`: when `template` is truthy it runs
`_private.template`; it then returns `deepCopy(_state.template)` of the
state as it stands after the call (the getter value, not the setter
result). -/
def publicTemplate (s : StoreState) (template : JsVal) : Option PubResult :=
  if truthy template then
    match setTemplate s template with
    | none => none
    | some (s1, r) =>
      match deepCopy s1.template with
      | none => none
      | some g => some ⟨s1, r, g⟩
  else
    match deepCopy s.template with
    | none => none
    | some g => some ⟨s, .vundefined, g⟩

/-! ### Helper lemmas -/

theorem truthy_of_isObj {v : JsVal} (h : isObj v = true) : truthy v = true := by
  cases v <;> simp_all [isObj, truthy]

theorem isObj_deepCopy {v : JsVal} (h : isObj v = true) :
    ∃ c, deepCopy v = some c ∧ isObj c = true := by
  cases v <;> simp_all [isObj]
  exact ⟨_, rfl, rfl⟩

theorem jsElem_mem {l : List JsVal} {i : Int} (h0 : 0 ≤ i)
    (h1 : i < (l.length : Int)) : jsElem l i ∈ l := by
  unfold jsElem
  rw [if_pos h0, List.get?_eq_get (by omega : i.toNat < l.length)]
  exact List.get_mem l _ _

theorem jsElem_out {l : List JsVal} {i : Int}
    (h : i < 0 ∨ (l.length : Int) ≤ i) : jsElem l i = .vundefined := by
  unfold jsElem
  rcases h with h | h
  · rw [if_neg (by omega)]
  · by_cases h0 : 0 ≤ i
    · rw [if_pos h0, List.get?_eq_none.mpr (by omega)]
      rfl
    · rw [if_neg h0]

theorem truthy_jsElem_range {l : List JsVal} {i : Int}
    (h : truthy (jsElem l i) = true) : 0 ≤ i ∧ i < (l.length : Int) := by
  by_cases h0 : 0 ≤ i ∧ i < (l.length : Int)
  · exact h0
  · rw [jsElem_out (by omega)] at h
    simp [truthy] at h

theorem all_isObj_jsElem {l : List JsVal} (hall : l.all isObj = true) {i : Int}
    (h0 : 0 ≤ i) (h1 : i < (l.length : Int)) : isObj (jsElem l i) = true :=
  List.all_eq_true.mp hall _ (jsElem_mem h0 h1)

theorem recall_in {s : StoreState} {i : Int} (hobj : s.store.all isObj = true)
    (h0 : 0 ≤ i) (h1 : i < (s.store.length : Int)) :
    ∃ c, deepCopy (jsElem s.store i) = some c ∧ truthy c = true ∧
      recallOp s i = some ({ s with currentIndex := i }, c,
        dispatchCalls s.template c) := by
  have ho := all_isObj_jsElem hobj h0 h1
  obtain ⟨c, hdc, hoc⟩ := isObj_deepCopy ho
  refine ⟨c, hdc, truthy_of_isObj hoc, ?_⟩
  unfold recallOp
  rw [if_pos (truthy_of_isObj ho), hdc]

theorem recall_out {s : StoreState} {i : Int}
    (hf : truthy (jsElem s.store i) = false) :
    recallOp s i = some (s, .vbool false, []) := by
  simp [recallOp, hf]

theorem insert_cases (s : StoreState) (i : Int) (state c : JsVal)
    (hobj : s.store.all isObj = true) (hc : deepCopy state = some c) :
    insert s i state =
      some (if i < 0 then (s, .vbool false)
            else if i ≤ (s.store.length : Int) then
              ({ s with store := s.store.take i.toNat ++ c :: s.store.drop i.toNat,
                        currentIndex :=
                          if i < s.currentIndex then s.currentIndex + 1
                          else s.currentIndex }, c)
            else ({ s with store := s.store ++ [c],
                           currentIndex := (s.store.length : Int) + 1 }, c)) := by
  unfold insert
  rw [hc, Option.map_some']
  by_cases hneg : i < 0
  · rw [jsElem_out (Or.inl hneg)]
    rw [if_neg (by simp [truthy]; omega), if_neg (by omega), if_pos hneg]
  · by_cases hle : i ≤ (s.store.length : Int)
    · rw [if_neg hneg, if_pos hle]
      by_cases hlt : i < (s.store.length : Int)
      · have ht := truthy_of_isObj (all_isObj_jsElem hobj (by omega) hlt)
        rw [if_pos (by simp [ht])]
        rfl
      · have hi : i = (s.store.length : Int) := by omega
        rw [if_pos (by simp [hi])]
        have : s.store.take i.toNat = s.store := List.take_of_length_le (by omega)
        have hd : s.store.drop i.toNat = [] := List.drop_eq_nil_of_le (by omega)
        simp [spliceInsert, this, hd]
    · rw [if_neg hneg, if_neg hle]
      rw [jsElem_out (Or.inr (by omega))]
      rw [if_neg (by simp [truthy]; omega), if_pos (by omega)]
      simp

theorem recall_valid {s s' : StoreState} {i : Int} {r : JsVal}
    {calls : List (String × JsVal)}
    (h : recallOp s i = some (s', r, calls)) (ht : truthy r = true) :
    0 ≤ s'.currentIndex ∧ s'.currentIndex < (s'.store.length : Int) := by
  unfold recallOp at h
  by_cases hg : truthy (jsElem s.store i) = true
  · rw [if_pos hg] at h
    cases hdc : deepCopy (jsElem s.store i) with
    | none => rw [hdc] at h; exact absurd h (by simp)
    | some c =>
      rw [hdc] at h
      simp only [Option.some.injEq, Prod.mk.injEq] at h
      obtain ⟨h1, _, _⟩ := h
      have hr := truthy_jsElem_range hg
      rw [← h1]
      exact hr
  · rw [if_neg hg] at h
    simp only [Option.some.injEq, Prod.mk.injEq] at h
    obtain ⟨_, h2, _⟩ := h
    rw [← h2] at ht
    simp [truthy] at ht

theorem append_valid {s s' : StoreState} {state c : JsVal}
    (h : append s state = some (s', c)) :
    0 ≤ s'.currentIndex ∧ s'.currentIndex < (s'.store.length : Int) := by
  unfold append at h
  cases hdc : deepCopy state with
  | none => rw [hdc] at h; simp at h
  | some c0 =>
    rw [hdc] at h
    simp only [Option.map_some', Option.some.injEq, Prod.mk.injEq] at h
    obtain ⟨h1, _⟩ := h
    rw [← h1]
    simp [List.length_append]

theorem undo_valid {s s' : StoreState} {r : JsVal}
    {calls : List (String × JsVal)}
    (h : undo s = some (s', r, calls)) (ht : truthy r = true) :
    0 ≤ s'.currentIndex ∧ s'.currentIndex < (s'.store.length : Int) := by
  unfold undo at h
  by_cases hci : s.currentIndex > 0
  · rw [if_pos hci] at h
    exact recall_valid h ht
  · rw [if_neg hci] at h
    simp only [Option.some.injEq, Prod.mk.injEq] at h
    obtain ⟨_, h2, _⟩ := h
    rw [← h2] at ht
    simp [truthy] at ht

theorem redo_valid {s s' : StoreState} {r : JsVal}
    {calls : List (String × JsVal)}
    (h : redo s = some (s', r, calls)) (ht : truthy r = true) :
    0 ≤ s'.currentIndex ∧ s'.currentIndex < (s'.store.length : Int) := by
  unfold redo at h
  by_cases hci : s.currentIndex < (s.store.length : Int) - 1
  · rw [if_pos hci] at h
    exact recall_valid h ht
  · rw [if_neg hci] at h
    simp only [Option.some.injEq, Prod.mk.injEq] at h
    obtain ⟨_, h2, _⟩ := h
    rw [← h2] at ht
    simp [truthy] at ht

/-! ### Claims -/

/-- Claim C1, counterexample.  The claim says `insert` fails with no
mutation for every index outside `[0, length]` and that insert at `length`
is equivalent to append.  On a store of length 1 (cursor 0), `insert(5, x)`
succeeds: the record is pushed to the tail and the cursor becomes 2.  Also,
on a store of length 2 (cursor 0), insert at `length = 2` leaves the cursor
at 0 while `append` moves it to 2, so the two are not equivalent. -/
theorem claim1_counterexample :
    insert ⟨.vobj [], [.vobj [("a", .vnum 1)]], 0⟩ 5 (.vobj []) =
      some (⟨.vobj [], [.vobj [("a", .vnum 1)], .vobj []], 2⟩, .vobj []) ∧
    truthy (.vobj []) = true ∧
    ¬((5 : Int) ≤ 1) ∧
    insert ⟨.vobj [], [.vobj [], .vobj []], 0⟩ 2 (.vobj [("z", .vnum 9)]) =
      some (⟨.vobj [], [.vobj [], .vobj [], .vobj [("z", .vnum 9)]], 0⟩,
            .vobj [("z", .vnum 9)]) ∧
    append ⟨.vobj [], [.vobj [], .vobj []], 0⟩ (.vobj [("z", .vnum 9)]) =
      some (⟨.vobj [], [.vobj [], .vobj [], .vobj [("z", .vnum 9)]], 2⟩,
            .vobj [("z", .vnum 9)]) ∧
    (0 : Int) ≠ 2 :=
  ⟨rfl, rfl, by decide, rfl, rfl, by decide⟩

/-- Claim C1, amended.  For a store whose records are all objects and a
serializable record: `insert` fails with no mutation exactly for negative
indices; for an index in `[0, length]` the copy is spliced in at that index
(with the cursor bumped only when `index < cursor`); for an index greater
than `length` the insert also succeeds, appending the copy at the tail and
setting the cursor to `length + 1`, one past the new last index.  Insert at
`length` appends to the sequence but, unlike `append`, leaves the cursor
unchanged. -/
theorem claim1_theorem (s : StoreState) (i : Int) (state c : JsVal)
    (hobj : s.store.all isObj = true) (hc : deepCopy state = some c) :
    insert s i state =
      some (if i < 0 then (s, .vbool false)
            else if i ≤ (s.store.length : Int) then
              ({ s with store := s.store.take i.toNat ++ c :: s.store.drop i.toNat,
                        currentIndex :=
                          if i < s.currentIndex then s.currentIndex + 1
                          else s.currentIndex }, c)
            else ({ s with store := s.store ++ [c],
                           currentIndex := (s.store.length : Int) + 1 }, c)) :=
  insert_cases s i state c hobj hc

/-- Claim C1, witness: a valid insert at `1 = length` on a one-record
store. -/
theorem claim1_witness :
    ([JsVal.vobj [("a", JsVal.vnum 1)]].all isObj = true) ∧
    insert ⟨.vobj [], [.vobj [("a", .vnum 1)]], 0⟩ 1 (.vobj []) =
      some (⟨.vobj [], [.vobj [("a", .vnum 1)], .vobj []], 0⟩, .vobj []) :=
  ⟨rfl, claim1_theorem ⟨.vobj [], [.vobj [("a", .vnum 1)]], 0⟩ 1
    (.vobj []) (.vobj []) rfl rfl⟩

/-- Claim C2, counterexample.  The claim says the cursor is a valid index
after any successful delete.  On the store `[{p:1},{p:2}]` with cursor 0,
`delete(1)` succeeds (it returns the truthy deleted copy) yet leaves the
one-record store with cursor `-1`, which is not a valid index. -/
theorem claim2_counterexample :
    delete ⟨.vobj [], [.vobj [("p", .vnum 1)], .vobj [("p", .vnum 2)]], 0⟩ 1 =
      some (⟨.vobj [], [.vobj [("p", .vnum 1)]], -1⟩, .vobj [("p", .vnum 2)]) ∧
    truthy (.vobj [("p", .vnum 2)]) = true ∧
    [JsVal.vobj [("p", .vnum 1)]] ≠ ([] : List JsVal) ∧
    ¬(0 ≤ (-1 : Int)) :=
  ⟨rfl, rfl, by simp, by decide⟩

/-- Claim C2, amended.  After any successful `append`, `recall`, `undo` or
`redo` the cursor is a valid index into the resulting sequence.  The
invariant does not extend to `delete` (which decrements the cursor
unconditionally, possibly to `-1` on a nonempty store) or to `insert` at an
index beyond the length (which sets the cursor to the new length). -/
theorem claim2_theorem :
    (∀ (s s' : StoreState) (state c : JsVal), append s state = some (s', c) →
      0 ≤ s'.currentIndex ∧ s'.currentIndex < (s'.store.length : Int)) ∧
    (∀ (s s' : StoreState) (i : Int) (r : JsVal)
        (calls : List (String × JsVal)),
      recallOp s i = some (s', r, calls) → truthy r = true →
      0 ≤ s'.currentIndex ∧ s'.currentIndex < (s'.store.length : Int)) ∧
    (∀ (s s' : StoreState) (r : JsVal) (calls : List (String × JsVal)),
      undo s = some (s', r, calls) → truthy r = true →
      0 ≤ s'.currentIndex ∧ s'.currentIndex < (s'.store.length : Int)) ∧
    (∀ (s s' : StoreState) (r : JsVal) (calls : List (String × JsVal)),
      redo s = some (s', r, calls) → truthy r = true →
      0 ≤ s'.currentIndex ∧ s'.currentIndex < (s'.store.length : Int)) :=
  ⟨fun _ _ _ _ h => append_valid h,
   fun _ _ _ _ _ h ht => recall_valid h ht,
   fun _ _ _ _ h ht => undo_valid h ht,
   fun _ _ _ _ h ht => redo_valid h ht⟩

/-- Claim C2, witness: an append into an empty store and an undo on a
two-record store both land the cursor on a valid index. -/
theorem claim2_witness :
    (0 ≤ (StoreState.mk (.vobj []) [.vobj []] 0).currentIndex ∧
      (StoreState.mk (.vobj []) [.vobj []] 0).currentIndex <
        ((StoreState.mk (.vobj []) [.vobj []] 0).store.length : Int)) ∧
    (0 ≤ (StoreState.mk (.vobj [])
        [.vobj [("x", .vnum 1)], .vobj [("x", .vnum 2)]] 0).currentIndex ∧
      (StoreState.mk (.vobj [])
        [.vobj [("x", .vnum 1)], .vobj [("x", .vnum 2)]] 0).currentIndex <
        ((StoreState.mk (.vobj [])
          [.vobj [("x", .vnum 1)], .vobj [("x", .vnum 2)]] 0).store.length : Int)) :=
  ⟨claim2_theorem.1 ⟨.vobj [], [], -1⟩ ⟨.vobj [], [.vobj []], 0⟩
      (.vobj []) (.vobj []) rfl,
   claim2_theorem.2.2.1 ⟨.vobj [], [.vobj [("x", .vnum 1)], .vobj [("x", .vnum 2)]], 1⟩
      ⟨.vobj [], [.vobj [("x", .vnum 1)], .vobj [("x", .vnum 2)]], 0⟩
      (.vobj [("x", .vnum 1)]) [] rfl rfl⟩

/-- Claim C3.  The claim (and the code's own documentation) says a key
present only in the template causes no handler invocation.  The dispatch
loop actually guards on the truthiness of the handler, not on the record
containing the key: with template `{a: h}` and record `{b: 2}`, `recall(0)`
succeeds and invokes `h` once with `undefined` even though the record has
no key `a`.  (On overlapping keys the dispatch does agree with the claim:
with record `{a:1, b:2}` it calls `h(1)` exactly once.) -/
theorem claim3_theorem :
    recallOp ⟨.vobj [("a", .vfun 0)], [.vobj [("b", .vnum 2)]], -1⟩ 0 =
      some (⟨.vobj [("a", .vfun 0)], [.vobj [("b", .vnum 2)]], 0⟩,
            .vobj [("b", .vnum 2)], [("a", .vundefined)]) ∧
    objGet (.vobj [("b", .vnum 2)]) "a" = .vundefined ∧
    [("a", JsVal.vundefined)] ≠ ([] : List (String × JsVal)) ∧
    recallOp ⟨.vobj [("a", .vfun 0)],
        [.vobj [("a", .vnum 1), ("b", .vnum 2)]], -1⟩ 0 =
      some (⟨.vobj [("a", .vfun 0)], [.vobj [("a", .vnum 1), ("b", .vnum 2)]], 0⟩,
            .vobj [("a", .vnum 1), ("b", .vnum 2)], [("a", .vnum 1)]) :=
  ⟨rfl, rfl, by simp, rfl⟩

/-- Claim C4.  The claim (and the code's own documentation) says the
template setter, given a mapping of unary functions, commits exactly that
mapping.  The setter deep-copies through a JSON round-trip, which strips
every function-valued field, so the all-function template `{a: h}` passes
validation as the empty mapping and `{}` is committed: a subsequent recall
dispatches no handler at all.  The rejection half does hold: `{a: 5}` is
rejected and the previous template is retained. -/
theorem claim4_theorem :
    setTemplate ⟨.vobj [("x", .vfun 0)], [.vobj [("a", .vnum 1)]], 0⟩
        (.vobj [("a", .vfun 1)]) =
      some (⟨.vobj [], [.vobj [("a", .vnum 1)]], 0⟩, .vobj []) ∧
    JsVal.vobj [] ≠ JsVal.vobj [("a", .vfun 1)] ∧
    recallOp ⟨.vobj [], [.vobj [("a", .vnum 1)]], 0⟩ 0 =
      some (⟨.vobj [], [.vobj [("a", .vnum 1)]], 0⟩, .vobj [("a", .vnum 1)], []) ∧
    setTemplate ⟨.vobj [("x", .vfun 0)], [.vobj [("a", .vnum 1)]], 0⟩
        (.vobj [("a", .vnum 5)]) =
      some (⟨.vobj [("x", .vfun 0)], [.vobj [("a", .vnum 1)]], 0⟩, .vbool false) :=
  ⟨rfl, by simp, rfl, rfl⟩

/-- Claim C5, counterexample.  The claim says an insert at an index equal
to the cursor increments the cursor.  On the store `[{},{}]` with cursor 1,
`insert(1, x)` succeeds but leaves the cursor at 1 (the code compares with
strict `<`), not at 2. -/
theorem claim5_counterexample :
    insert ⟨.vobj [], [.vobj [], .vobj []], 1⟩ 1 (.vobj []) =
      some (⟨.vobj [], [.vobj [], .vobj [], .vobj []], 1⟩, .vobj []) ∧
    (1 : Int) ≤ 1 ∧ (1 : Int) ≠ 1 + 1 :=
  ⟨rfl, by decide, by decide⟩

/-- Claim C5, amended.  For a successful insert at a nonnegative index:
when the index is in `[0, length]`, the cursor increments by one exactly
when the index is strictly less than the cursor and is unchanged when the
index is greater than or equal to the cursor; when the index is greater
than `length` (which also succeeds), the cursor is set to `length + 1`. -/
theorem claim5_theorem (s : StoreState) (i : Int) (state c : JsVal)
    (hobj : s.store.all isObj = true) (hc : deepCopy state = some c)
    (h0 : 0 ≤ i) :
    Option.map (fun r => r.1.currentIndex) (insert s i state) =
      some (if i ≤ (s.store.length : Int) then
              (if i < s.currentIndex then s.currentIndex + 1
               else s.currentIndex)
            else (s.store.length : Int) + 1) := by
  rw [insert_cases s i state c hobj hc]
  rw [if_neg (by omega)]
  by_cases hle : i ≤ (s.store.length : Int)
  · rw [if_pos hle, if_pos hle]
    rfl
  · rw [if_neg hle, if_neg hle]
    rfl

/-- Claim C5, witness: inserting at index 0 with the cursor at 1 bumps the
cursor to 2. -/
theorem claim5_witness :
    Option.map (fun r => r.1.currentIndex)
      (insert ⟨.vobj [], [.vobj [], .vobj []], 1⟩ 0 (.vobj [])) = some 2 :=
  claim5_theorem ⟨.vobj [], [.vobj [], .vobj []], 1⟩ 0 (.vobj []) (.vobj [])
    rfl rfl (by decide)

/-- Claim C6.  For a store whose records are all objects: `delete(index)`
with `index` in `[0, length)` removes the record at that index (shifting
later records one position down) and decrements the cursor by exactly one,
with no condition on where the cursor sits relative to the index; for any
index outside `[0, length)` it fails, returning `false` with no
mutation. -/
theorem claim6_theorem (s : StoreState) (i : Int)
    (hobj : s.store.all isObj = true) :
    delete s i =
      if 0 ≤ i ∧ i < (s.store.length : Int) then
        some ({ s with store := s.store.take i.toNat ++ s.store.drop (i.toNat + 1),
                       currentIndex := s.currentIndex - 1 },
              (deepCopy (jsElem s.store i)).getD (.vbool false))
      else some (s, .vbool false) := by
  by_cases h : 0 ≤ i ∧ i < (s.store.length : Int)
  · rw [if_pos h]
    have ho := all_isObj_jsElem hobj h.1 h.2
    obtain ⟨c, hdc, _⟩ := isObj_deepCopy ho
    unfold delete
    rw [if_pos (truthy_of_isObj ho), hdc]
    simp [spliceRemove, hdc]
  · rw [if_neg h]
    unfold delete
    rw [jsElem_out (by omega)]
    simp [truthy]

/-- Claim C6, witness: the spec's own §8 example — `[a,b,c,d]` with cursor
3, `delete(1)` yields `[a,c,d]` with cursor 2 and returns the deleted
record. -/
theorem claim6_witness :
    ([JsVal.vobj [("k", JsVal.vstr "a")], .vobj [("k", .vstr "b")],
      .vobj [("k", .vstr "c")], .vobj [("k", .vstr "d")]].all isObj = true) ∧
    delete ⟨.vobj [], [.vobj [("k", .vstr "a")], .vobj [("k", .vstr "b")],
        .vobj [("k", .vstr "c")], .vobj [("k", .vstr "d")]], 3⟩ 1 =
      some (⟨.vobj [], [.vobj [("k", .vstr "a")], .vobj [("k", .vstr "c")],
        .vobj [("k", .vstr "d")]], 2⟩, .vobj [("k", .vstr "b")]) :=
  ⟨rfl, claim6_theorem ⟨.vobj [], [.vobj [("k", .vstr "a")],
      .vobj [("k", .vstr "b")], .vobj [("k", .vstr "c")],
      .vobj [("k", .vstr "d")]], 3⟩ 1 rfl⟩

/-- Claim C7.  The claim (and the code's own README) says every public
operation returns its result in addition to passing it to the callback.
The public wrappers for `delete`, `insert`, `replace`, `undo` and `redo`
have no `return` statement: on a successful call the callback receives the
result but the method returns `undefined`.  (`append` and `recall` do
return their result.) -/
theorem claim7_theorem :
    publicDelete ⟨.vobj [], [.vobj [("a", .vnum 1)]], 0⟩ 0 =
      some ⟨⟨.vobj [], [], -1⟩, .vobj [("a", .vnum 1)], .vundefined⟩ ∧
    JsVal.vundefined ≠ JsVal.vobj [("a", .vnum 1)] ∧
    publicInsert ⟨.vobj [], [], -1⟩ 0 (.vobj []) =
      some ⟨⟨.vobj [], [.vobj []], -1⟩, .vobj [], .vundefined⟩ ∧
    publicReplace ⟨.vobj [], [.vobj []], 0⟩ 0 (.vobj [("b", .vnum 2)]) =
      some ⟨⟨.vobj [], [.vobj [("b", .vnum 2)]], -1⟩, .vobj [("b", .vnum 2)],
        .vundefined⟩ ∧
    publicUndo ⟨.vobj [], [.vobj [], .vobj []], 1⟩ =
      some ⟨⟨.vobj [], [.vobj [], .vobj []], 0⟩, .vobj [], .vundefined⟩ ∧
    publicRedo ⟨.vobj [], [.vobj [], .vobj []], 0⟩ =
      some ⟨⟨.vobj [], [.vobj [], .vobj []], 1⟩, .vobj [], .vundefined⟩ ∧
    publicAppend ⟨.vobj [], [], -1⟩ (.vobj []) =
      some ⟨⟨.vobj [], [.vobj []], 0⟩, .vobj [], .vobj []⟩ :=
  ⟨rfl, by simp, rfl, rfl, rfl, rfl, rfl⟩

/-- Claim C8.  For a store whose records are all objects and a cursor in
the valid range `[-1, length)`: `undo` is exactly `recall(cursor - 1)` and
succeeds when `cursor > 0`, and fails with no state change when
`cursor ≤ 0`; `redo` is exactly `recall(cursor + 1)` and succeeds when
`cursor < length - 1`, and fails with no state change otherwise — no
wraparound and no clamping. -/
theorem claim8_theorem (s : StoreState) (hobj : s.store.all isObj = true)
    (hlo : -1 ≤ s.currentIndex)
    (hhi : s.currentIndex < (s.store.length : Int)) :
    (0 < s.currentIndex →
      undo s = recallOp s (s.currentIndex - 1) ∧
      Option.map (fun r => truthy r.2.1) (undo s) = some true) ∧
    (s.currentIndex ≤ 0 → undo s = some (s, .vbool false, [])) ∧
    (s.currentIndex < (s.store.length : Int) - 1 →
      redo s = recallOp s (s.currentIndex + 1) ∧
      Option.map (fun r => truthy r.2.1) (redo s) = some true) ∧
    ((s.store.length : Int) - 1 ≤ s.currentIndex →
      redo s = some (s, .vbool false, [])) := by
  refine ⟨fun h => ?_, fun h => ?_, fun h => ?_, fun h => ?_⟩
  · have he : undo s = recallOp s (s.currentIndex - 1) := by
      unfold undo
      rw [if_pos h]
    refine ⟨he, ?_⟩
    obtain ⟨c, _, htc, hr⟩ :=
      recall_in (i := s.currentIndex - 1) hobj (by omega) (by omega)
    rw [he, hr]
    simp [htc]
  · unfold undo
    rw [if_neg (by omega)]
  · have he : redo s = recallOp s (s.currentIndex + 1) := by
      unfold redo
      rw [if_pos h]
    refine ⟨he, ?_⟩
    obtain ⟨c, _, htc, hr⟩ :=
      recall_in (i := s.currentIndex + 1) hobj (by omega) (by omega)
    rw [he, hr]
    simp [htc]
  · unfold redo
    rw [if_neg (by omega)]

/-- Claim C8, witness: on a two-record store with cursor 1, `undo` is
`recall(0)` and succeeds, while `redo` fails leaving the state
unchanged. -/
theorem claim8_witness :
    (undo ⟨.vobj [], [.vobj [("x", .vnum 1)], .vobj [("x", .vnum 2)]], 1⟩ =
        recallOp ⟨.vobj [], [.vobj [("x", .vnum 1)], .vobj [("x", .vnum 2)]], 1⟩ 0 ∧
      Option.map (fun r => truthy r.2.1)
        (undo ⟨.vobj [], [.vobj [("x", .vnum 1)], .vobj [("x", .vnum 2)]], 1⟩) =
        some true) ∧
    redo ⟨.vobj [], [.vobj [("x", .vnum 1)], .vobj [("x", .vnum 2)]], 1⟩ =
      some (⟨.vobj [], [.vobj [("x", .vnum 1)], .vobj [("x", .vnum 2)]], 1⟩,
        .vbool false, []) :=
  ⟨(claim8_theorem ⟨.vobj [], [.vobj [("x", .vnum 1)], .vobj [("x", .vnum 2)]], 1⟩
      rfl (by decide) (by decide)).1 (by decide),
   (claim8_theorem ⟨.vobj [], [.vobj [("x", .vnum 1)], .vobj [("x", .vnum 2)]], 1⟩
      rfl (by decide) (by decide)).2.2.2 (by decide)⟩

/-- Claim C9, counterexample.  The claim says that with no `currentIndex`
option the cursor defaults to the last index of the initial sequence, and
that the configuration object is optional.  Constructing with a one-record
initial store and no `currentIndex` yields cursor `-1`, not the last index
0; and constructing without the configuration object throws (the
constructor reads `params.dev` unconditionally). -/
theorem claim9_counterexample :
    construct (.vobj []) (some ⟨.vundefined, .varr [.vobj []], none⟩) =
      some ⟨.vobj [], [.vobj []], -1⟩ ∧
    (-1 : Int) ≠ ([JsVal.vobj []].length : Int) - 1 ∧
    construct (.vobj []) none = none :=
  ⟨rfl, by decide, rfl⟩

/-- Claim C9, amended.  When no `currentIndex` option is supplied the
cursor is initialized to `-1` regardless of the initial sequence; and the
configuration object is required — construction with it absent throws. -/
theorem claim9_theorem (t : JsVal) (p : CParams) (ht : t ≠ .vnull)
    (hp : p.currentIndex = none) :
    (construct t (some p)).isSome = true ∧
    Option.map StoreState.currentIndex (construct t (some p)) = some (-1) ∧
    construct t none = none := by
  have hct : ∃ b, checkTemplate t = some b := by
    cases t
    case vnull => exact absurd rfl ht
    all_goals exact ⟨_, rfl⟩
  obtain ⟨b, hb⟩ := hct
  obtain ⟨d, st, ci⟩ := p
  have hci : ci = none := hp
  subst hci
  unfold construct
  rw [hb]
  exact ⟨rfl, rfl, rfl⟩

/-- Claim C9, witness: constructing with a one-record initial store and no
`currentIndex` option succeeds with cursor `-1`, and constructing without
the configuration object throws. -/
theorem claim9_witness :
    (construct (.vobj []) (some ⟨.vundefined, .varr [.vobj []], none⟩)).isSome = true ∧
    Option.map StoreState.currentIndex
      (construct (.vobj []) (some ⟨.vundefined, .varr [.vobj []], none⟩)) = some (-1) ∧
    construct (.vobj []) none = none :=
  claim9_theorem (.vobj []) ⟨.vundefined, .varr [.vobj []], none⟩
    (fun h => JsVal.noConfusion h) rfl

/-- Claim C10.  When the record at an in-range index `i` is falsy (for
example `null`, seedable through the sequence setter or the constructor's
initial store), `recall(i)`, `delete(i)` and the cursor setter `set(i)` all
fail exactly as they do on an out-of-range index, with no mutation: each
guards on the truthiness of `store[i]`, not on a range check.  The last
conjunct shows the sequence setter does seed a store holding `null`. -/
theorem claim10_theorem (s : StoreState) (i : Int)
    (h0 : 0 ≤ i) (h1 : i < (s.store.length : Int))
    (hf : truthy (jsElem s.store i) = false) :
    recallOp s i = some (s, .vbool false, []) ∧
    delete s i = some (s, .vbool false) ∧
    indexSet s i = (s, false) ∧
    setStore ⟨.vobj [], [], -1⟩ (.varr [.vnull]) =
      some (⟨.vobj [], [.vnull], 0⟩, .varr [.vnull]) := by
  refine ⟨recall_out hf, ?_, ?_, rfl⟩
  · simp [delete, hf]
  · simp [indexSet, hf]

/-- Claim C10, witness: on the store `[null]` (cursor 0), index 0 is in
range yet recall, delete and the cursor setter all fail. -/
theorem claim10_witness :
    truthy (jsElem [JsVal.vnull] 0) = false ∧
    (recallOp ⟨.vobj [], [.vnull], 0⟩ 0 =
        some (⟨.vobj [], [.vnull], 0⟩, .vbool false, []) ∧
      delete ⟨.vobj [], [.vnull], 0⟩ 0 = some (⟨.vobj [], [.vnull], 0⟩, .vbool false) ∧
      indexSet ⟨.vobj [], [.vnull], 0⟩ 0 = (⟨.vobj [], [.vnull], 0⟩, false) ∧
      setStore ⟨.vobj [], [], -1⟩ (.varr [.vnull]) =
        some (⟨.vobj [], [.vnull], 0⟩, .varr [.vnull])) :=
  ⟨rfl, claim10_theorem ⟨.vobj [], [.vnull], 0⟩ 0 (by decide) (by decide) rfl⟩

end KDSM
